import Mathlib

/-!
Verification development for the step-demo repository.

The subject is the hello-world demo in `src/src/hello_world.py` (the polling
activity worker `activity_worker`, the execution monitor inside
`run_hello_world_demo`, and the cleanup coordination between them) together
with `create_step_function` from `src/src/step_functions.py`.

Embedding style: every remote service call (create_state_machine,
start_execution, describe_execution, get_activity_task, send_task_success) is
modelled by an environment/oracle that fixes the outcome of each call; the
embedded functions are deterministic functions of that environment.  Logical
time advances only at `asyncio.sleep` calls (remote calls take zero logical
time), matching the delay-unit accounting of the specification.  The actions
of the main coroutine of `run_hello_world_demo` are recorded as an event
trace, so that ordering, call-count and cancellation properties can be stated
about it.
-/

namespace StepDemo

/-- Outcome of one `describe_execution` call: either a response carrying a
status string and an optional output payload, or a raised exception. -/
inductive DescribeRes where
  | ok (status : String) (output : Option String)
  | raised (msg : String)
deriving DecidableEq

/-- The terminal status set tested by `run_hello_world_demo`:
`response['status'] in ['SUCCEEDED', 'FAILED', 'TIMED_OUT', 'ABORTED']`. -/
def terminalStatuses : List String := ["SUCCEEDED", "FAILED", "TIMED_OUT", "ABORTED"]

/-- How the monitor's poll loop in `run_hello_world_demo` ends: a terminal
remote status, the local timeout (`print("Execution timed out"); break`), or
an exception raised by a `describe_execution` call (caught by the surrounding
`except`).  `fuelOut` is an artifact of the structural-recursion iteration
budget; `pollRun_not_fuelOut` proves it is unreachable at the budget used. -/
inductive MonitorOutcome where
  | terminal (status : String) (output : Option String)
  | localTimeout
  | describeRaised (msg : String)
  | fuelOut
deriving DecidableEq

/-- Result of the monitor's poll loop: its outcome, the number of
`describe_execution` calls issued, and the elapsed logical time
(`asyncio.get_event_loop().time() - start_time`, advanced by 2 at each
`await asyncio.sleep(2)`) at the moment the loop exits. -/
structure MonitorResult where
  outcome : MonitorOutcome
  calls : Nat
  elapsed : Nat
deriving DecidableEq

/-- The `while True` poll loop of `run_hello_world_demo`, lines 154-170:
check `elapsed > timeout` (local timeout), issue `describe_execution`
(`describe calls` is the result of the next call), exit on a terminal status,
otherwise `await asyncio.sleep(2)` and repeat.  `fuel` is a structural
iteration budget; since every iteration that continues adds 2 to `elapsed`
and the loop stops as soon as `timeout < elapsed`, any budget with
`timeout + 2 ≤ 2 * fuel + elapsed` is enough (`pollLoopF_not_fuelOut`). -/
def pollLoopF (describe : Nat → DescribeRes) (timeout : Nat) :
    Nat → Nat → Nat → MonitorResult
  | 0, calls, elapsed => ⟨.fuelOut, calls, elapsed⟩
  | fuel + 1, calls, elapsed =>
    if timeout < elapsed then ⟨.localTimeout, calls, elapsed⟩
    else
      match describe calls with
      | .raised msg => ⟨.describeRaised msg, calls + 1, elapsed⟩
      | .ok s out =>
        if s ∈ terminalStatuses then ⟨.terminal s out, calls + 1, elapsed⟩
        else pollLoopF describe timeout fuel (calls + 1) (elapsed + 2)

/-- The monitor phase of `run_hello_world_demo` for a configured `timeout`,
started at zero describe calls and zero elapsed time, with a provably
sufficient iteration budget. -/
def pollRun (describe : Nat → DescribeRes) (timeout : Nat) : MonitorResult :=
  pollLoopF describe timeout (timeout + 2) 0 0

/-- Embedding of `create_hello_world_stepfunction` (hello_world.py lines
9-51): the `create_state_machine` call either returns a state-machine ARN or
raises; the `except` handler turns any exception into a `None` return. -/
def create_hello_world_stepfunction (callRes : Except String String) : Option String :=
  match callRes with
  | .ok arn => some arn
  | .error _ => none

/-- Embedding of `start_hello_world_execution` (hello_world.py lines
91-112): the `start_execution` call either returns an execution ARN or
raises; the `except` handler turns any exception into a `None` return. -/
def start_hello_world_execution (callRes : Except String String) : Option String :=
  match callRes with
  | .ok arn => some arn
  | .error _ => none

/-- Python truthiness test `if not x:` on an optional string: true exactly
for `None` and for the empty string. -/
def isFalsy : Option String → Bool
  | none => true
  | some s => s == ""

/-- One action of the main coroutine of `run_hello_world_demo`, in program
order: creating the state machine, `asyncio.create_task(activity_worker ...)`,
the `start_execution` request, the `n`-th `describe_execution` request
(0-indexed), a `worker_task.cancel()` call, and the `await worker_task` that
acknowledges the cancellation (its `CancelledError` swallowed). -/
inductive Event where
  | createStateMachine
  | createWorkerTask
  | startExecution
  | describe (n : Nat)
  | cancelWorker
  | awaitWorker
deriving DecidableEq

/-- Environment for one run of `run_hello_world_demo`: the outcome of the
`create_state_machine` call, of the `start_execution` call, and of each
successive `describe_execution` call. -/
structure DemoEnv where
  createCall : Except String String
  startCall : Except String String
  describe : Nat → DescribeRes

/-- How `run_hello_world_demo` ends: early return because the state machine
was not created, early return because the execution did not start, or via the
monitor phase with its result. -/
inductive DemoOutcome where
  | createFailed
  | startFailed
  | monitored (r : MonitorResult)
deriving DecidableEq

/-- Result of a `run_hello_world_demo` run: the event trace of its main
coroutine (in execution order, complete up to the return) and its outcome. -/
structure DemoResult where
  trace : List Event
  outcome : DemoOutcome
deriving DecidableEq

/-- Embedding of `run_hello_world_demo` (hello_world.py lines 115-181), with
the timeout a parameter (the source configures it to 60 at line 151).  Paths:
if `create_hello_world_stepfunction` returns a falsy value, return at once;
otherwise create the worker task, issue `start_execution`; on a falsy
execution ARN, `worker_task.cancel()` then `return`, which runs the `finally`
block — a second `worker_task.cancel()` followed by `await worker_task`;
otherwise run the poll loop (terminal status, local timeout, or an exception
caught by the `except` clause) and then the `finally` block, one
`worker_task.cancel()` followed by `await worker_task`. -/
def runDemoWith (env : DemoEnv) (timeout : Nat) : DemoResult :=
  let smArn := create_hello_world_stepfunction env.createCall
  if isFalsy smArn then
    ⟨[.createStateMachine], .createFailed⟩
  else
    let execArn := start_hello_world_execution env.startCall
    if isFalsy execArn then
      ⟨[.createStateMachine, .createWorkerTask, .startExecution,
        .cancelWorker, .cancelWorker, .awaitWorker], .startFailed⟩
    else
      let r := pollRun env.describe timeout
      ⟨[.createStateMachine, .createWorkerTask, .startExecution]
          ++ (List.range r.calls).map Event.describe
          ++ [.cancelWorker, .awaitWorker],
        .monitored r⟩

/-- The demo at the source's configured timeout of 60. -/
def run_hello_world_demo (env : DemoEnv) : DemoResult := runDemoWith env 60

/-- Number of `worker_task.cancel()` calls recorded in a trace. -/
def countCancel : List Event → Nat
  | [] => 0
  | Event.cancelWorker :: es => countCancel es + 1
  | _ :: es => countCancel es

/-- Outcome of one `get_activity_task` call in `activity_worker`: a response
containing a `taskToken`, a response without one (no work available), or a
raised exception. -/
inductive FetchRes where
  | task (token : String)
  | noTask
  | raised (msg : String)
deriving DecidableEq

/-- Outcome of one `send_task_success` call: success or a raised exception. -/
inductive ReportRes where
  | ok
  | raised (msg : String)
deriving DecidableEq

/-- Environment for `activity_worker`: the outcome of the `get_activity_task`
call of iteration `i`, and of the `send_task_success` call of iteration `i`
(consulted only when that iteration's fetch returned a task token). -/
structure WorkerEnv where
  fetch : Nat → FetchRes
  report : Nat → ReportRes

/-- One action of `activity_worker`: the `get_activity_task` call of
iteration `i`, the `send_task_success` call of iteration `i`, or an
`asyncio.sleep(d)`. -/
inductive WEvent where
  | fetch (i : Nat)
  | report (i : Nat)
  | sleep (d : Nat)
deriving DecidableEq

/-- The `try` block of one `activity_worker` iteration (hello_world.py lines
63-82): fetch a task; if a `taskToken` is present, report success; then
`await asyncio.sleep(1)`.  Returns the events performed and whether the block
raised (`True` exactly when the fetch or the report call raised; the events
performed before the raise are kept). -/
def workerTryBody (env : WorkerEnv) (i : Nat) : List WEvent × Bool :=
  match env.fetch i with
  | .raised _ => ([.fetch i], true)
  | .noTask => ([.fetch i, .sleep 1], false)
  | .task _ =>
    match env.report i with
    | .raised _ => ([.fetch i, .report i], true)
    | .ok => ([.fetch i, .report i, .sleep 1], false)

/-- One full `while True` iteration of `activity_worker` (lines 62-86): the
`except Exception` handler catches any raise from the body and executes
`await asyncio.sleep(5)` instead of propagating. -/
def workerIter (env : WorkerEnv) (i : Nat) : List WEvent :=
  let body := workerTryBody env i
  if body.2 then body.1 ++ [.sleep 5] else body.1

/-- Embedding of `activity_worker` (hello_world.py lines 54-86): the event
trace of the first `n` loop iterations.  The loop has no exit of its own;
`n` marks the point at which external cancellation is observed (cancellation
is delivered at an `await`, i.e. at an iteration boundary in this model). -/
def activity_worker (env : WorkerEnv) : Nat → List WEvent
  | 0 => []
  | n + 1 => activity_worker env n ++ workerIter env n

/-- Outcome of one `create_state_machine` call as seen by
`create_step_function` (step_functions.py lines 81-120): success with an ARN,
the service's `StateMachineAlreadyExists` exception, or any other
exception. -/
inductive CreateSMRes where
  | created (arn : String)
  | alreadyExists
  | otherError (msg : String)
deriving DecidableEq

/-- Embedding of `create_step_function` (step_functions.py lines 81-120):
returns the function's return value together with the lines it prints.  The
`except client.exceptions.StateMachineAlreadyExists` branch and the generic
`except Exception` branch both return `None`, with distinct messages. -/
def create_step_function (callRes : CreateSMRes) : Option String × List String :=
  match callRes with
  | .created arn => (some arn, ["State Machine created successfully: " ++ arn])
  | .alreadyExists => (none, ["State Machine already exists."])
  | .otherError e => (none, ["Error creating State Machine: " ++ e])

/-- Environment of the C3 scenario: the state machine is created, the
execution starts with handle `exec-1`, and `describe_execution` returns
`RUNNING` twice, then `SUCCEEDED` with the hello-world output payload. -/
def c3Env : DemoEnv where
  createCall := Except.ok "arn:hello-sm"
  startCall := Except.ok "exec-1"
  describe := fun n =>
    if n < 2 then DescribeRes.ok "RUNNING" none
    else DescribeRes.ok "SUCCEEDED" (some "\x7b\"message\": \"Hello World!\"\x7d")

/-- Environment of the C4 scenario: creation and start succeed, and every
`describe_execution` call returns `RUNNING`. -/
def c4Env : DemoEnv where
  createCall := Except.ok "arn:hello-sm"
  startCall := Except.ok "exec-1"
  describe := fun _ => DescribeRes.ok "RUNNING" none

/-- Environment exhibiting the start-failure path: the state machine is
created but the `start_execution` call raises. -/
def startFailEnv : DemoEnv where
  createCall := Except.ok "arn:hello-sm"
  startCall := Except.error "boom"
  describe := fun _ => DescribeRes.ok "RUNNING" none

/-- Environment for the C5 witness: creation succeeds, start fails. -/
def c5Env : DemoEnv where
  createCall := Except.ok "arn:hello-sm"
  startCall := Except.error "start refused"
  describe := fun _ => DescribeRes.ok "RUNNING" none

/-- Environment for the C9 witness: the `create_state_machine` call
raises. -/
def c9Env : DemoEnv where
  createCall := Except.error "no permission"
  startCall := Except.ok "exec-1"
  describe := fun _ => DescribeRes.ok "RUNNING" none

/-- Worker environment for the C6 witness: the first fetch raises, every
later fetch finds no work, reports always succeed. -/
def c6Env : WorkerEnv where
  fetch := fun i => if i = 0 then FetchRes.raised "fetch down" else FetchRes.noTask
  report := fun _ => ReportRes.ok

/-- Worker environment for the C7 witness: every fetch raises. -/
def c7Env : WorkerEnv where
  fetch := fun _ => FetchRes.raised "fetch down"
  report := fun _ => ReportRes.ok

/-! ## Lemmas about the poll loop -/

/-- Whenever the poll loop exits with the local-timeout outcome, the elapsed
time at the exit strictly exceeds the configured timeout (the loop breaks on
`now - start_time > timeout`). -/
theorem pollLoopF_localTimeout_elapsed (d : Nat → DescribeRes) (t : Nat) :
    ∀ fuel calls elapsed,
      (pollLoopF d t fuel calls elapsed).outcome = MonitorOutcome.localTimeout →
      t < (pollLoopF d t fuel calls elapsed).elapsed := by
  intro fuel calls elapsed
  induction fuel, calls, elapsed using pollLoopF.induct d t with
  | case1 calls elapsed =>
    intro h
    simp [pollLoopF] at h
  | case2 fuel calls elapsed hte =>
    intro _
    simp [pollLoopF, hte]
  | case3 fuel calls elapsed hte msg hd =>
    intro h
    simp [pollLoopF, hte, hd] at h
  | case4 fuel calls elapsed hte s out hd hs =>
    intro h
    simp [pollLoopF, hte, hd, hs] at h
  | case5 fuel calls elapsed hte s out hd hs ih =>
    intro h
    simp only [pollLoopF, if_neg hte, hd, if_neg hs] at h ⊢
    exact ih h

/-- If every `describe_execution` call returns a non-terminal status, the
poll loop exits with the local-timeout outcome, provided the iteration budget
satisfies `t + 2 ≤ 2 * fuel + elapsed` (which the budget of `pollRun`
does). -/
theorem pollLoopF_liveness (d : Nat → DescribeRes) (t : Nat)
    (hd : ∀ n, ∃ s out, d n = DescribeRes.ok s out ∧ s ∉ terminalStatuses) :
    ∀ fuel calls elapsed, t + 2 ≤ 2 * fuel + elapsed →
      (pollLoopF d t (fuel + 1) calls elapsed).outcome = MonitorOutcome.localTimeout := by
  intro fuel
  induction fuel with
  | zero =>
    intro calls elapsed hb
    have hte : t < elapsed := by omega
    simp [pollLoopF, hte]
  | succ f ih =>
    intro calls elapsed hb
    by_cases hte : t < elapsed
    · simp [pollLoopF, hte]
    · obtain ⟨s, out, hds, hsnt⟩ := hd calls
      simp only [pollLoopF, if_neg hte, hds, if_neg hsnt]
      exact ih (calls + 1) (elapsed + 2) (by omega)

/-- The iteration budget of `pollRun` is never exhausted: the poll loop
always exits through one of the three source exits. -/
theorem pollRun_not_fuelOut (d : Nat → DescribeRes) (t : Nat) :
    (pollRun d t).outcome ≠ MonitorOutcome.fuelOut := by
  have key : ∀ fuel calls elapsed, t + 2 ≤ 2 * fuel + elapsed →
      (pollLoopF d t (fuel + 1) calls elapsed).outcome ≠ MonitorOutcome.fuelOut := by
    intro fuel
    induction fuel with
    | zero =>
      intro calls elapsed hb
      have hte : t < elapsed := by omega
      simp [pollLoopF, hte]
    | succ f ih =>
      intro calls elapsed hb
      by_cases hte : t < elapsed
      · simp [pollLoopF, hte]
      · simp only [pollLoopF, if_neg hte]
        cases hd : d calls with
        | raised m => simp
        | ok s out =>
          dsimp only
          by_cases hs : s ∈ terminalStatuses
          · simp [hs]
          · simp only [if_neg hs]
            exact ih (calls + 1) (elapsed + 2) (by omega)
  exact key (t + 1) 0 0 (by omega)

/-! ## Claim theorems -/

/-- C2: if `describe_execution` never returns a terminal status, the monitor
returns the local-timeout outcome (a `MonitorOutcome.localTimeout`, distinct
by construction from a remote `terminal "TIMED_OUT"` result), and whenever
the local-timeout outcome is returned the elapsed time strictly exceeds the
configured timeout — hence at or after the timeout and never at an elapsed
time less than or equal to it. -/
theorem c2_timeout_boundary (describe : Nat → DescribeRes) (timeout : Nat) :
    ((pollRun describe timeout).outcome = MonitorOutcome.localTimeout →
        timeout < (pollRun describe timeout).elapsed) ∧
    ((∀ n, ∃ s out, describe n = DescribeRes.ok s out ∧ s ∉ terminalStatuses) →
        (pollRun describe timeout).outcome = MonitorOutcome.localTimeout ∧
          timeout < (pollRun describe timeout).elapsed) ∧
    (∀ s out, MonitorOutcome.localTimeout ≠ MonitorOutcome.terminal s out) := by
  refine ⟨fun h => pollLoopF_localTimeout_elapsed describe timeout _ _ _ h,
    fun hd => ?_, by intro s out h; exact MonitorOutcome.noConfusion h⟩
  have hl : (pollLoopF describe timeout ((timeout + 1) + 1) 0 0).outcome =
      MonitorOutcome.localTimeout :=
    pollLoopF_liveness describe timeout hd (timeout + 1) 0 0 (by omega)
  exact ⟨hl, pollLoopF_localTimeout_elapsed describe timeout _ _ _ hl⟩

/-- Witness for C2: with every describe returning `RUNNING` and the source's
timeout of 60, the monitor returns the local-timeout outcome at elapsed time
strictly beyond 60. -/
theorem c2_timeout_boundary_witness :
    (pollRun (fun _ => DescribeRes.ok "RUNNING" none) 60).outcome =
        MonitorOutcome.localTimeout ∧
      60 < (pollRun (fun _ => DescribeRes.ok "RUNNING" none) 60).elapsed :=
  (c2_timeout_boundary (fun _ => DescribeRes.ok "RUNNING" none) 60).2.1
    (fun _ => ⟨"RUNNING", none, rfl, by decide⟩)

/-- C3: in the scenario where the execution handle is `exec-1` and
describe returns `RUNNING`, `RUNNING`, then `SUCCEEDED` with output
`{"message": "Hello World!"}`, the monitor reports `SUCCEEDED` with that
output, having made exactly 3 describe calls. -/
theorem c3_success_scenario :
    start_hello_world_execution c3Env.startCall = some "exec-1" ∧
    (run_hello_world_demo c3Env).outcome =
      DemoOutcome.monitored
        ⟨MonitorOutcome.terminal "SUCCEEDED"
            (some "\x7b\"message\": \"Hello World!\"\x7d"), 3, 4⟩ ∧
    (run_hello_world_demo c3Env).trace =
      [Event.createStateMachine, Event.createWorkerTask, Event.startExecution,
        Event.describe 0, Event.describe 1, Event.describe 2,
        Event.cancelWorker, Event.awaitWorker] := by
  decide

/-- C4: with describe always `RUNNING`, a timeout of 3 delay-units and the
source's 2-unit poll interval, the monitor returns the local-timeout outcome
after exactly 2 describe iterations, at elapsed time 4 (which exceeds 3),
and the worker task is still cancelled and awaited afterwards. -/
theorem c4_timeout_scenario :
    (runDemoWith c4Env 3).outcome =
      DemoOutcome.monitored ⟨MonitorOutcome.localTimeout, 2, 4⟩ ∧
    (runDemoWith c4Env 3).trace =
      [Event.createStateMachine, Event.createWorkerTask, Event.startExecution,
        Event.describe 0, Event.describe 1,
        Event.cancelWorker, Event.awaitWorker] := by
  decide

/-! ## Lemmas about the demo trace -/

/-- Cancel calls in a concatenated trace add up. -/
theorem countCancel_append (l1 l2 : List Event) :
    countCancel (l1 ++ l2) = countCancel l1 + countCancel l2 := by
  induction l1 with
  | nil => simp [countCancel]
  | cons e es ih => cases e <;> simp [countCancel, ih] <;> omega

/-- Describe events contribute no cancel calls. -/
theorem countCancel_describes (l : List Nat) :
    countCancel (l.map Event.describe) = 0 := by
  induction l with
  | nil => rfl
  | cons n ns ih => simpa [countCancel] using ih

/-- When `create_hello_world_stepfunction` yields a falsy value, the demo
returns at once with the create-failed outcome. -/
theorem runDemoWith_createFailed (env : DemoEnv) (timeout : Nat)
    (hc : isFalsy (create_hello_world_stepfunction env.createCall) = true) :
    runDemoWith env timeout = ⟨[Event.createStateMachine], DemoOutcome.createFailed⟩ := by
  simp [runDemoWith, hc]

/-- When creation succeeds but `start_hello_world_execution` yields a falsy
value, the demo cancels in the failure branch, then again in `finally`, and
awaits the worker. -/
theorem runDemoWith_startFailed (env : DemoEnv) (timeout : Nat)
    (hc : isFalsy (create_hello_world_stepfunction env.createCall) = false)
    (hs : isFalsy (start_hello_world_execution env.startCall) = true) :
    runDemoWith env timeout =
      ⟨[Event.createStateMachine, Event.createWorkerTask, Event.startExecution,
        Event.cancelWorker, Event.cancelWorker, Event.awaitWorker],
        DemoOutcome.startFailed⟩ := by
  simp [runDemoWith, hc, hs]

/-- When creation and start both succeed, the demo runs the monitor and then
the `finally` cleanup: one cancel followed by the await. -/
theorem runDemoWith_monitored (env : DemoEnv) (timeout : Nat)
    (hc : isFalsy (create_hello_world_stepfunction env.createCall) = false)
    (hs : isFalsy (start_hello_world_execution env.startCall) = false) :
    runDemoWith env timeout =
      ⟨[Event.createStateMachine, Event.createWorkerTask, Event.startExecution]
          ++ (List.range (pollRun env.describe timeout).calls).map Event.describe
          ++ [Event.cancelWorker, Event.awaitWorker],
        DemoOutcome.monitored (pollRun env.describe timeout)⟩ := by
  simp [runDemoWith, hc, hs]

/-- C1 counterexample: on the start-execution-failure path the worker task
was created, yet `worker_task.cancel()` is recorded twice — once in the
failure branch (hello_world.py line 147) and once in the `finally` block
(line 177) — so the Worker Loop is not cancelled exactly once on every
path. -/
theorem c1_counterexample :
    Event.createWorkerTask ∈ (run_hello_world_demo startFailEnv).trace ∧
    countCancel (run_hello_world_demo startFailEnv).trace = 2 ∧
    countCancel (run_hello_world_demo startFailEnv).trace ≠ 1 := by
  decide

/-- C1 (amended): on every path of the demo in which the worker task was
created, the Worker Loop is cancelled at least once — exactly once on all
paths except the start-execution-failure path, where the cancel call is
issued twice — and the await that acknowledges the cancellation is the last
action before the operation returns. -/
theorem c1_cleanup_always (env : DemoEnv) (timeout : Nat)
    (h : Event.createWorkerTask ∈ (runDemoWith env timeout).trace) :
    1 ≤ countCancel (runDemoWith env timeout).trace ∧
    countCancel (runDemoWith env timeout).trace ≤ 2 ∧
    (isFalsy (start_hello_world_execution env.startCall) = false →
      countCancel (runDemoWith env timeout).trace = 1) ∧
    (isFalsy (start_hello_world_execution env.startCall) = true →
      countCancel (runDemoWith env timeout).trace = 2) ∧
    (runDemoWith env timeout).trace.getLast? = some Event.awaitWorker := by
  by_cases hc : isFalsy (create_hello_world_stepfunction env.createCall) = true
  · rw [runDemoWith_createFailed env timeout hc] at h
    simp at h
  · rw [Bool.not_eq_true] at hc
    by_cases hs : isFalsy (start_hello_world_execution env.startCall) = true
    · rw [runDemoWith_startFailed env timeout hc hs]
      refine ⟨by decide, by decide, ?_, fun _ => by decide, rfl⟩
      intro hf
      rw [hf] at hs
      cases hs
    · rw [Bool.not_eq_true] at hs
      rw [runDemoWith_monitored env timeout hc hs]
      dsimp only
      have hcount :
          countCancel
            ([Event.createStateMachine, Event.createWorkerTask, Event.startExecution]
              ++ (List.range (pollRun env.describe timeout).calls).map Event.describe
              ++ [Event.cancelWorker, Event.awaitWorker]) = 1 := by
        rw [countCancel_append, countCancel_append, countCancel_describes]
        rfl
      refine ⟨by omega, by omega, fun _ => hcount, ?_, ?_⟩
      · intro hf
        rw [hf] at hs
        cases hs
      · rw [List.getLast?_append_of_ne_nil _
          (by simp : ([Event.cancelWorker, Event.awaitWorker] : List Event) ≠ [])]
        rfl

/-- Witness for the amended C1 on the start-failure path: the worker task
exists, the cancel count is within bounds, and the trace ends with the
cancellation-acknowledging await. -/
theorem c1_cleanup_always_witness :
    Event.createWorkerTask ∈ (runDemoWith startFailEnv 60).trace ∧
      countCancel (runDemoWith startFailEnv 60).trace ≤ 2 ∧
      (runDemoWith startFailEnv 60).trace.getLast? = some Event.awaitWorker :=
  ⟨by decide, (c1_cleanup_always startFailEnv 60 (by decide)).2.1,
    (c1_cleanup_always startFailEnv 60 (by decide)).2.2.2.2⟩

/-- C5: whenever the start-execution request fails (after a successful
creation), the demo ends with the start-failed outcome, no describe call is
ever issued, and the already-created worker task is cancelled and awaited
before the return. -/
theorem c5_start_failure (env : DemoEnv) (timeout : Nat)
    (hc : isFalsy (create_hello_world_stepfunction env.createCall) = false)
    (hs : start_hello_world_execution env.startCall = none) :
    (runDemoWith env timeout).outcome = DemoOutcome.startFailed ∧
    (∀ n, Event.describe n ∉ (runDemoWith env timeout).trace) ∧
    Event.createWorkerTask ∈ (runDemoWith env timeout).trace ∧
    Event.cancelWorker ∈ (runDemoWith env timeout).trace ∧
    (runDemoWith env timeout).trace.getLast? = some Event.awaitWorker := by
  have hs' : isFalsy (start_hello_world_execution env.startCall) = true := by
    rw [hs]; rfl
  rw [runDemoWith_startFailed env timeout hc hs']
  exact ⟨rfl, fun n => by simp, by simp, by simp, rfl⟩

/-- Witness for C5: with a failing start call, the demo reports the start
failure, the worker was created, and no describe call happened. -/
theorem c5_start_failure_witness :
    (runDemoWith c5Env 60).outcome = DemoOutcome.startFailed ∧
      Event.createWorkerTask ∈ (runDemoWith c5Env 60).trace ∧
      Event.describe 0 ∉ (runDemoWith c5Env 60).trace :=
  ⟨(c5_start_failure c5Env 60 (by decide) (by decide)).1,
    (c5_start_failure c5Env 60 (by decide) (by decide)).2.2.1,
    (c5_start_failure c5Env 60 (by decide) (by decide)).2.1 0⟩

/-- C8: on every run that creates the worker task, the trace decomposes as
create-state-machine, then create-worker-task, then start-execution, then
only describe events, then only cleanup events (cancel/await) ending with
the await — so the worker start strictly precedes the start-execution call,
the start-execution call strictly precedes every describe, and the cleanup
is strictly after the monitor phase on every exit path. -/
theorem c8_ordering (env : DemoEnv) (timeout : Nat)
    (h : Event.createWorkerTask ∈ (runDemoWith env timeout).trace) :
    ∃ ds cs,
      (runDemoWith env timeout).trace =
        Event.createStateMachine :: Event.createWorkerTask ::
          Event.startExecution :: (ds ++ cs) ∧
      (∀ e ∈ ds, ∃ n, e = Event.describe n) ∧
      (∀ e ∈ cs, e = Event.cancelWorker ∨ e = Event.awaitWorker) ∧
      Event.cancelWorker ∈ cs ∧
      cs.getLast? = some Event.awaitWorker := by
  by_cases hc : isFalsy (create_hello_world_stepfunction env.createCall) = true
  · rw [runDemoWith_createFailed env timeout hc] at h
    simp at h
  · rw [Bool.not_eq_true] at hc
    by_cases hs : isFalsy (start_hello_world_execution env.startCall) = true
    · refine ⟨[], [Event.cancelWorker, Event.cancelWorker, Event.awaitWorker],
        ?_, by simp, ?_, by simp, rfl⟩
      · rw [runDemoWith_startFailed env timeout hc hs]
        rfl
      · intro e he
        fin_cases he <;> simp
    · rw [Bool.not_eq_true] at hs
      refine ⟨(List.range (pollRun env.describe timeout).calls).map Event.describe,
        [Event.cancelWorker, Event.awaitWorker], ?_, ?_, ?_, by simp, rfl⟩
      · rw [runDemoWith_monitored env timeout hc hs]
        rfl
      · intro e he
        rw [List.mem_map] at he
        obtain ⟨n, -, rfl⟩ := he
        exact ⟨n, rfl⟩
      · intro e he
        fin_cases he <;> simp

/-- Witness for C8: the ordering decomposition at the concrete always-RUNNING
environment with timeout 3. -/
theorem c8_ordering_witness :
    ∃ ds cs,
      (runDemoWith c4Env 3).trace =
        Event.createStateMachine :: Event.createWorkerTask ::
          Event.startExecution :: (ds ++ cs) ∧
      (∀ e ∈ ds, ∃ n, e = Event.describe n) ∧
      (∀ e ∈ cs, e = Event.cancelWorker ∨ e = Event.awaitWorker) ∧
      Event.cancelWorker ∈ cs ∧
      cs.getLast? = some Event.awaitWorker :=
  c8_ordering c4Env 3 (by decide)

/-- C9: if `create_hello_world_stepfunction` returns no ARN, the demo
returns immediately — no worker task is created, no start-execution request
is issued, and no describe call is made. -/
theorem c9_create_failure (env : DemoEnv) (timeout : Nat)
    (h : create_hello_world_stepfunction env.createCall = none) :
    runDemoWith env timeout = ⟨[Event.createStateMachine], DemoOutcome.createFailed⟩ ∧
    Event.createWorkerTask ∉ (runDemoWith env timeout).trace ∧
    Event.startExecution ∉ (runDemoWith env timeout).trace ∧
    ∀ n, Event.describe n ∉ (runDemoWith env timeout).trace := by
  have hc : isFalsy (create_hello_world_stepfunction env.createCall) = true := by
    rw [h]; rfl
  rw [runDemoWith_createFailed env timeout hc]
  exact ⟨rfl, by simp, by simp, fun n => by simp⟩

/-- Witness for C9: a raising create call makes the demo return at once with
no worker task. -/
theorem c9_create_failure_witness :
    runDemoWith c9Env 60 = ⟨[Event.createStateMachine], DemoOutcome.createFailed⟩ ∧
      Event.createWorkerTask ∉ (runDemoWith c9Env 60).trace :=
  ⟨(c9_create_failure c9Env 60 rfl).1, (c9_create_failure c9Env 60 rfl).2.1⟩

/-! ## Lemmas about the worker loop -/

/-- Every worker iteration starts with its fetch call. -/
theorem fetch_mem_workerIter (env : WorkerEnv) (i : Nat) :
    WEvent.fetch i ∈ workerIter env i := by
  cases hf : env.fetch i with
  | raised m => simp [workerIter, workerTryBody, hf]
  | noTask => simp [workerIter, workerTryBody, hf]
  | task tk =>
    cases hr : env.report i with
    | ok => simp [workerIter, workerTryBody, hf, hr]
    | raised m => simp [workerIter, workerTryBody, hf, hr]

/-- C6: the last action of every worker iteration is a sleep — of 5 time
units when the iteration's fetch or report call raised, of 1 time unit after
a successful iteration (work done or no work available) — each iteration
begins with its fetch, and iteration `i + 1`'s events strictly follow
iteration `i`'s, so the next fetch occurs no sooner than the delay demanded
by the previous iteration's outcome. -/
theorem c6_backoff (env : WorkerEnv) (i : Nat) :
    ((∃ m, env.fetch i = FetchRes.raised m) ∨
        (∃ tk m, env.fetch i = FetchRes.task tk ∧ env.report i = ReportRes.raised m) →
      (workerIter env i).getLast? = some (WEvent.sleep 5)) ∧
    ((env.fetch i = FetchRes.noTask ∨
        ∃ tk, env.fetch i = FetchRes.task tk ∧ env.report i = ReportRes.ok) →
      (workerIter env i).getLast? = some (WEvent.sleep 1)) ∧
    (workerIter env i).head? = some (WEvent.fetch i) ∧
    activity_worker env (i + 1) = activity_worker env i ++ workerIter env i := by
  refine ⟨?_, ?_, ?_, rfl⟩
  · rintro (⟨m, hm⟩ | ⟨tk, m, htk, hm⟩)
    · simp [workerIter, workerTryBody, hm]
    · simp [workerIter, workerTryBody, htk, hm]
  · rintro (hm | ⟨tk, htk, hm⟩)
    · simp [workerIter, workerTryBody, hm]
    · simp [workerIter, workerTryBody, htk, hm]
  · cases hf : env.fetch i with
    | raised m => simp [workerIter, workerTryBody, hf]
    | noTask => simp [workerIter, workerTryBody, hf]
    | task tk =>
      cases hr : env.report i with
      | ok => simp [workerIter, workerTryBody, hf, hr]
      | raised m => simp [workerIter, workerTryBody, hf, hr]

/-- Witness for C6: a raising fetch at iteration 0 is followed by the 5-unit
backoff sleep; a no-work iteration at 1 by the 1-unit sleep. -/
theorem c6_backoff_witness :
    (∃ m, c6Env.fetch 0 = FetchRes.raised m) ∧
      (workerIter c6Env 0).getLast? = some (WEvent.sleep 5) ∧
      (workerIter c6Env 1).getLast? = some (WEvent.sleep 1) :=
  ⟨⟨"fetch down", by decide⟩,
    (c6_backoff c6Env 0).1 (Or.inl ⟨"fetch down", by decide⟩),
    (c6_backoff c6Env 1).2.1 (Or.inl (by decide))⟩

/-- C7: when the body of a worker iteration raises (its fetch or report call
failed), the `except` handler absorbs the error — the iteration ends in the
5-unit backoff instead of propagating — and the loop performs its next
iterations regardless: iteration `i`'s fetch and iteration `i + 1`'s fetch
both occur, for any environment, so errors never escape `activity_worker`
and there is no maximum retry count; the loop only ends via the external
cancellation bound. -/
theorem c7_worker_resilience (env : WorkerEnv) (i : Nat)
    (h : (workerTryBody env i).2 = true) :
    workerIter env i = (workerTryBody env i).1 ++ [WEvent.sleep 5] ∧
    WEvent.fetch i ∈ activity_worker env (i + 1) ∧
    WEvent.fetch (i + 1) ∈ activity_worker env (i + 2) := by
  refine ⟨by simp [workerIter, h], ?_, ?_⟩
  · show WEvent.fetch i ∈ activity_worker env i ++ workerIter env i
    exact List.mem_append_right _ (fetch_mem_workerIter env i)
  · show WEvent.fetch (i + 1) ∈ activity_worker env (i + 1) ++ workerIter env (i + 1)
    exact List.mem_append_right _ (fetch_mem_workerIter env (i + 1))

/-- Witness for C7: with every fetch raising, iteration 0 swallows the error
into a backoff and iteration 1 still fetches. -/
theorem c7_worker_resilience_witness :
    (workerTryBody c7Env 0).2 = true ∧
      workerIter c7Env 0 = (workerTryBody c7Env 0).1 ++ [WEvent.sleep 5] ∧
      WEvent.fetch 1 ∈ activity_worker c7Env 2 :=
  ⟨by decide, (c7_worker_resilience c7Env 0 (by decide)).1,
    (c7_worker_resilience c7Env 0 (by decide)).2.2⟩

/-- C10: `create_step_function` returns the created ARN exactly when the
create call succeeds; both the dedicated `StateMachineAlreadyExists` branch
and the generic error branch return `None` instead of raising, and the two
branches are distinct — they print different messages. -/
theorem c10_create_step_function_branches :
    (∀ arn, create_step_function (CreateSMRes.created arn) =
      (some arn, ["State Machine created successfully: " ++ arn])) ∧
    create_step_function CreateSMRes.alreadyExists =
      (none, ["State Machine already exists."]) ∧
    (∀ e, create_step_function (CreateSMRes.otherError e) =
      (none, ["Error creating State Machine: " ++ e])) ∧
    (∀ e, (create_step_function CreateSMRes.alreadyExists).2 ≠
      (create_step_function (CreateSMRes.otherError e)).2) := by
  refine ⟨fun arn => rfl, rfl, fun e => rfl, fun e h => ?_⟩
  simp only [create_step_function, List.cons.injEq, and_true] at h
  have hd : ("State Machine already exists.").data =
      ("Error creating State Machine: ").data ++ e.data := congrArg String.data h
  have hl := congrArg List.length hd
  rw [List.length_append] at hl
  have e1 : ("State Machine already exists.").data.length = 29 := rfl
  have e2 : ("Error creating State Machine: ").data.length = 30 := rfl
  omega

/-- Witness for C10: the two `None` branches at a concrete error message. -/
theorem c10_create_step_function_witness :
    create_step_function CreateSMRes.alreadyExists =
        (none, ["State Machine already exists."]) ∧
      (create_step_function CreateSMRes.alreadyExists).2 ≠
        (create_step_function (CreateSMRes.otherError "boom")).2 :=
  ⟨c10_create_step_function_branches.2.1,
    c10_create_step_function_branches.2.2.2 "boom"⟩

end StepDemo
